import Mathlib

/-!
Verification of the `what-i-want` library (src/src/lib.rs): a trait `WhatIwant`
classifying two-state wrapper values, and a family of early-exit macros built on
the base rule `unwrap_or_do!`.

Embedding notes.  Rust's `Result<T, E>` is mirrored by an inductive `Result`;
Rust's `Option<T>` is Lean's `Option`.  A macro expansion is a code template;
its runtime outcome at the call site is modelled by `Flow R B`: either it
produces a value (`val`), performs `return`/`return v` from the enclosing
function whose return type is `R` (`ret`), performs `continue` on the enclosing
loop (`cont`), or panics inside `.unwrap()` (`panic`).  Rust's fallible
`.unwrap()` is modelled as returning `Option` (`none` = panic).  Because a
declarative macro substitutes its argument expression textually at every
occurrence site, evaluation counts and side effects are modelled by a second,
state-passing embedding (`unwrap_or_doE`, `require1E`, `require2E`) in which an
expression is a function `S → S × A` and is applied once per occurrence site
reached, exactly as in the expanded Rust code.
-/

set_option autoImplicit false

namespace WhatIWant

/-- Rust's `Result<T, E>` (the type the source's `impl<T, E> WhatIwant for Result<T, E>`
at lines 104-108 is about). -/
inductive Result (T E : Type) where
  | ok : T → Result T E
  | err : E → Result T E
deriving DecidableEq, Repr

/-- Rust's `Result::is_ok`: `true` on `Ok(_)`, `false` on `Err(_)`. -/
def Result.is_ok {T E : Type} : Result T E → Bool
  | .ok _ => true
  | .err _ => false

/-- The trait `WhatIwant` (src/src/lib.rs lines 100-102): `fn is_i_want(&self) -> bool`. -/
class WhatIwant (A : Type) where
  is_i_want : A → Bool

/-- `impl<T, E> WhatIwant for Result<T, E>` (lines 104-108): `self.is_ok()`. -/
instance instWhatIwantResult {T E : Type} : WhatIwant (Result T E) :=
  ⟨Result.is_ok⟩

/-- `impl<T> WhatIwant for Option<T>` (lines 110-114): `self.is_some()`. -/
instance instWhatIwantOption {T : Type} : WhatIwant (Option T) :=
  ⟨Option.isSome⟩

/-- Rust's inherent `.unwrap()` used by the macro expansion: `some` payload when it
succeeds, `none` when the call panics. -/
class Unwrap (A : Type) (B : outParam Type) where
  unwrap : A → Option B

/-- `Result::unwrap`: payload of `Ok`, panics on `Err`. -/
instance instUnwrapResult {T E : Type} : Unwrap (Result T E) T :=
  ⟨fun r => match r with | .ok a => some a | .err _ => none⟩

/-- `Option::unwrap`: payload of `Some`, panics on `None`. -/
instance instUnwrapOption {T : Type} : Unwrap (Option T) T :=
  ⟨fun o => o⟩

/-- Call-site outcome of a macro expansion inside a function returning `R`:
a produced value of type `B`, a `return` carrying an `R` (bare `return` is
`ret ()` with `R = Unit`), a `continue`, or a panic raised by `.unwrap()`. -/
inductive Flow (R B : Type) where
  | val : B → Flow R B
  | ret : R → Flow R B
  | cont : Flow R B
  | panic : Flow R B
deriving DecidableEq, Repr

/-- Expansion of the base rule `unwrap_or_do!($exp, $do)` (src/src/lib.rs lines 136-144),
exactly as written in the source:
`if $exp.is_i_want() { $do } else { $exp.unwrap() }`.
Note the branches: the fallback `$do` (whose call-site outcome is the `fb` argument)
runs when the value IS wanted, and `.unwrap()` runs when it is NOT. -/
def unwrap_or_do {A B R : Type} [WhatIwant A] [Unwrap A B]
    (exp : A) (fb : Flow R B) : Flow R B :=
  if WhatIwant.is_i_want exp then
    fb
  else
    match Unwrap.unwrap exp with
    | some b => Flow.val b
    | none => Flow.panic

/-- Expansion of `unwrap_or_continue!($exp)` (lines 167-171): `unwrap_or_do!($exp, continue)`. -/
def unwrap_or_continue {A B R : Type} [WhatIwant A] [Unwrap A B] (exp : A) : Flow R B :=
  unwrap_or_do exp Flow.cont

/-- Expansion of `unwrap_or_return!($exp)` (lines 187-191): `unwrap_or_do!($exp, return)`. -/
def unwrap_or_return {A B : Type} [WhatIwant A] [Unwrap A B] (exp : A) : Flow Unit B :=
  unwrap_or_do exp (Flow.ret ())

/-- Expansion of `unwrap_or_false!($exp)` (lines 207-211): `unwrap_or_do!($exp, return false)`. -/
def unwrap_or_false {A B : Type} [WhatIwant A] [Unwrap A B] (exp : A) : Flow Bool B :=
  unwrap_or_do exp (Flow.ret false)

/-- Expansion of `unwrap_or_true!($exp)` (lines 227-231).  The source literally reads
`unwrap_or_do!($exp, return false)` — `return false`, not `return true`. -/
def unwrap_or_true {A B : Type} [WhatIwant A] [Unwrap A B] (exp : A) : Flow Bool B :=
  unwrap_or_do exp (Flow.ret false)

/-- Expansion of `unwrap_or_val!($exp, $val)` (lines 247-251): `unwrap_or_do!($exp, return $val)`. -/
def unwrap_or_val {A B R : Type} [WhatIwant A] [Unwrap A B] (exp : A) (v : R) : Flow R B :=
  unwrap_or_do exp (Flow.ret v)

/-- One-argument form of `require!` (lines 270-274): `if !$condition { return; }`. -/
def require1 (condition : Bool) : Flow Unit Unit :=
  if !condition then Flow.ret () else Flow.val ()

/-- Two-argument form of `require!` (lines 275-279): `if !$condition { return $return; }`. -/
def require2 {R : Type} (condition : Bool) (r : R) : Flow R Unit :=
  if !condition then Flow.ret r else Flow.val ()

/-- Effectful expansion of `unwrap_or_do!($exp, $do)`: expressions are state
transformers `S → S × _`, and `$exp` is applied once per occurrence site reached
in the expanded text — at `$exp.is_i_want()`, and again at `$exp.unwrap()` when
the else branch runs, exactly as the macro substitutes it. -/
def unwrap_or_doE {S A B R : Type} [WhatIwant A] [Unwrap A B]
    (exp : S → S × A) (fb : S → S × Flow R B) (s : S) : S × Flow R B :=
  let p := exp s
  if WhatIwant.is_i_want p.2 then
    fb p.1
  else
    let q := exp p.1
    match Unwrap.unwrap q.2 with
    | some b => (q.1, Flow.val b)
    | none => (q.1, Flow.panic)

/-- Effectful expansion of one-argument `require!`: `$condition` occurs once. -/
def require1E {S : Type} (condition : S → S × Bool) (s : S) : S × Flow Unit Unit :=
  let p := condition s
  if !p.2 then (p.1, Flow.ret ()) else (p.1, Flow.val ())

/-- Effectful expansion of two-argument `require!`: `$condition` occurs once, and
`$return` occurs only inside the `if !$condition` branch. -/
def require2E {S R : Type} (condition : S → S × Bool) (r : S → S × R) (s : S) :
    S × Flow R Unit :=
  let p := condition s
  if !p.2 then
    let q := r p.1
    (q.1, Flow.ret q.2)
  else
    (p.1, Flow.val ())

/-- Instrument an effectful expression with a counter recording how often it runs. -/
def counted {S A : Type} (f : S → S × A) (p : S × Nat) : (S × Nat) × A :=
  (((f p.1).1, p.2 + 1), (f p.1).2)

/-- Lift an effectful expression to the counted state, leaving the counter unchanged. -/
def counterFree {S A : Type} (f : S → S × A) (p : S × Nat) : (S × Nat) × A :=
  (((f p.1).1, p.2), (f p.1).2)

/-- Instrument with the first of two counters. -/
def countedFst {S A : Type} (f : S → S × A) (p : S × Nat × Nat) : (S × Nat × Nat) × A :=
  (((f p.1).1, p.2.1 + 1, p.2.2), (f p.1).2)

/-- Instrument with the second of two counters. -/
def countedSnd {S A : Type} (f : S → S × A) (p : S × Nat × Nat) : (S × Nat × Nat) × A :=
  (((f p.1).1, p.2.1, p.2.2 + 1), (f p.1).2)

@[simp]
theorem is_i_want_ok {T E : Type} (a : T) :
    WhatIwant.is_i_want (Result.ok a : Result T E) = true := rfl

@[simp]
theorem is_i_want_err {T E : Type} (e : E) :
    WhatIwant.is_i_want (Result.err e : Result T E) = false := rfl

@[simp]
theorem is_i_want_some {T : Type} (a : T) :
    WhatIwant.is_i_want (some a : Option T) = true := rfl

@[simp]
theorem is_i_want_none {T : Type} :
    WhatIwant.is_i_want (none : Option T) = false := rfl

/-- Claim C1 (code_bug evidence): evaluating the base rule at the failing input.
The claim says `unwrap_or_do!(Ok(5), 0)` yields the unwrapped payload `5`; the code's
wanted branch executes the fallback instead, so the expansion yields `0`, not `5`. -/
theorem c1_eval_at_failing_input :
    unwrap_or_do (Result.ok 5 : Result Nat String) (Flow.val 0 : Flow Unit Nat)
        = Flow.val 0
    ∧ unwrap_or_do (Result.ok 5 : Result Nat String) (Flow.val 0 : Flow Unit Nat)
        ≠ Flow.val 5 := by
  exact ⟨rfl, by decide⟩

/-- Claim C2 (code_bug evidence): evaluating the base rule at the failing input.
The claim says `unwrap_or_do!(Err("x"), 0)` yields `0` with no panic and never evaluates
`.unwrap()`; the code's not-wanted branch is exactly `$exp.unwrap()`, which panics. -/
theorem c2_eval_at_failing_input :
    unwrap_or_do (Result.err "x" : Result Nat String) (Flow.val 0 : Flow Unit Nat)
      = Flow.panic := rfl

/-- Claim C3 (counterexample): a counter-incrementing classified expression in the
not-wanted state is evaluated twice by one invocation of the base rule — the counter
ends at `2`, not `1` — refuting "evaluated exactly once regardless of branch". -/
theorem c3_counterexample :
    (unwrap_or_doE (fun n : Nat => (n + 1, (Result.err "x" : Result Nat String)))
        (fun n : Nat => (n, (Flow.val 0 : Flow Unit Nat))) 0).1 = 2
    ∧ (2 : Nat) ≠ 1 := by
  exact ⟨rfl, by decide⟩

/-- Claim C3 (amended): per invocation of the base rule, the classified expression is
evaluated exactly once when it is in the wanted state, and exactly twice when it is in
the not-wanted state — the expansion re-evaluates it at the `$exp.unwrap()` site. -/
theorem c3_amended_eval_count {S A B R : Type} [WhatIwant A] [Unwrap A B]
    (exp : S → S × A) (fb : S → S × Flow R B) (s : S) :
    ((unwrap_or_doE (counted exp) (counterFree fb) (s, 0)).1).2
      = if WhatIwant.is_i_want (exp s).2 then 1 else 2 := by
  cases h : WhatIwant.is_i_want (exp s).2 with
  | true => simp [unwrap_or_doE, counted, counterFree, h]
  | false =>
    simp only [unwrap_or_doE, counted, counterFree, h, Bool.false_eq_true, if_false]
    cases hu : Unwrap.unwrap (exp (exp s).1).2 with
    | some b => simp [hu]
    | none => simp [hu]

/-- Claim C4 (code_bug evidence): `unwrap_or_true!` applied to a not-wanted value does
not return `true`: the expansion panics in `.unwrap()` there, and its fallback —
executed on the wanted branch instead — is `return false`. -/
theorem c4_eval_at_failing_input :
    unwrap_or_true (Result.err () : Result Nat Unit) = (Flow.panic : Flow Bool Nat)
    ∧ unwrap_or_true (Result.ok 1 : Result Nat Unit) = (Flow.ret false : Flow Bool Nat) := by
  exact ⟨rfl, rfl⟩

/-- Claim C5: `unwrap_or_true!` and `unwrap_or_false!` have identical expansions; both
delegate to the base rule with fallback `return false`. -/
theorem c5_true_false_identical {A B : Type} [WhatIwant A] [Unwrap A B] (exp : A) :
    unwrap_or_true exp = unwrap_or_false exp
    ∧ unwrap_or_false exp = unwrap_or_do exp (Flow.ret false) := by
  exact ⟨rfl, rfl⟩

/-- Claim C5 witness at a concrete input. -/
theorem c5_witness :
    unwrap_or_true (Result.ok 1 : Result Nat Unit)
        = unwrap_or_false (Result.ok 1 : Result Nat Unit)
    ∧ unwrap_or_false (Result.ok 1 : Result Nat Unit)
        = unwrap_or_do (Result.ok 1 : Result Nat Unit) (Flow.ret false) :=
  c5_true_false_identical (Result.ok 1 : Result Nat Unit)

/-- Claim C6: `require!(c)` and `require!(c, v)` continue with no exit when `c` is true;
when `c` is false the one-argument form exits with no value (`return`, i.e. `ret ()`)
and the two-argument form exits returning `v`; in particular `require!(2 == 3, false)`
returns `false` from the enclosing function. -/
theorem c6_require_guard {R : Type} (c : Bool) (v : R) :
    require1 c = (if c then Flow.val () else Flow.ret ())
    ∧ require2 c v = (if c then Flow.val () else Flow.ret v)
    ∧ require2 (decide (2 = 3)) false = Flow.ret false := by
  refine ⟨?_, ?_, rfl⟩ <;> cases c <;> rfl

/-- Claim C6 witness at concrete inputs. -/
theorem c6_witness :
    require1 false = (if false then Flow.val () else Flow.ret ())
    ∧ require2 false true = (if false then Flow.val () else Flow.ret true)
    ∧ require2 (decide (2 = 3)) false = Flow.ret false :=
  c6_require_guard false true

/-- Claim C7: for every `Result`, over every success and error type and payload,
`is_i_want` is `true` iff the value is `Ok` and `false` iff it is `Err`. -/
theorem c7_result_classifier {T E : Type} (r : Result T E) :
    (WhatIwant.is_i_want r = true ↔ ∃ a, r = Result.ok a)
    ∧ (WhatIwant.is_i_want r = false ↔ ∃ e, r = Result.err e) := by
  cases r <;> simp

/-- Claim C7 witness at concrete inputs. -/
theorem c7_witness :
    (WhatIwant.is_i_want (Result.ok 5 : Result Nat String) = true
      ↔ ∃ a, (Result.ok 5 : Result Nat String) = Result.ok a)
    ∧ (WhatIwant.is_i_want (Result.ok 5 : Result Nat String) = false
      ↔ ∃ e, (Result.ok 5 : Result Nat String) = Result.err e) :=
  c7_result_classifier (Result.ok 5 : Result Nat String)

/-- Claim C8: for every `Option`, over every contained type and payload, `is_i_want`
is `true` iff the value is `some` and `false` iff it is `none`. -/
theorem c8_option_classifier {T : Type} (o : Option T) :
    (WhatIwant.is_i_want o = true ↔ ∃ a, o = some a)
    ∧ (WhatIwant.is_i_want o = false ↔ o = none) := by
  cases o <;> simp

/-- Claim C8 witness at a concrete input. -/
theorem c8_witness :
    (WhatIwant.is_i_want (some 3 : Option Nat) = true ↔ ∃ a, (some 3 : Option Nat) = some a)
    ∧ (WhatIwant.is_i_want (some 3 : Option Nat) = false ↔ (some 3 : Option Nat) = none) :=
  c8_option_classifier (some 3 : Option Nat)

/-- Claim C9: each named variant is exactly the base rule with its fixed fallback:
`continue`, bare `return`, `return false`, and `return $val` respectively. -/
theorem c9_variants_delegate {A B R : Type} [WhatIwant A] [Unwrap A B]
    (exp : A) (v : R) :
    (unwrap_or_continue exp : Flow R B) = unwrap_or_do exp Flow.cont
    ∧ unwrap_or_return exp = unwrap_or_do exp (Flow.ret ())
    ∧ unwrap_or_false exp = unwrap_or_do exp (Flow.ret false)
    ∧ unwrap_or_val exp v = unwrap_or_do exp (Flow.ret v) := by
  exact ⟨rfl, rfl, rfl, rfl⟩

/-- Claim C9 witness at concrete inputs. -/
theorem c9_witness :
    (unwrap_or_continue (some 3 : Option Nat) : Flow Bool Nat)
        = unwrap_or_do (some 3 : Option Nat) Flow.cont
    ∧ unwrap_or_return (some 3 : Option Nat)
        = unwrap_or_do (some 3 : Option Nat) (Flow.ret ())
    ∧ unwrap_or_false (some 3 : Option Nat)
        = unwrap_or_do (some 3 : Option Nat) (Flow.ret false)
    ∧ unwrap_or_val (some 3 : Option Nat) true
        = unwrap_or_do (some 3 : Option Nat) (Flow.ret true) :=
  c9_variants_delegate (some 3 : Option Nat) true

/-- Claim C10: in both forms of `require!` the condition is evaluated exactly once per
invocation, and in the two-argument form the fallback value is evaluated exactly when
the condition is false (never when it is true). -/
theorem c10_require_eval_counts {S R : Type} (condition : S → S × Bool)
    (r : S → S × R) (s : S) :
    ((require1E (counted condition) (s, 0)).1).2 = 1
    ∧ ((require2E (countedFst condition) (countedSnd r) (s, 0, 0)).1).2.1 = 1
    ∧ ((require2E (countedFst condition) (countedSnd r) (s, 0, 0)).1).2.2
        = (if (condition s).2 then 0 else 1) := by
  cases h : (condition s).2 with
  | true =>
    simp [require1E, require2E, counted, countedFst, countedSnd, h]
  | false =>
    simp [require1E, require2E, counted, countedFst, countedSnd, h]

/-- Claim C10 witness at concrete inputs. -/
theorem c10_witness :
    ((require1E (counted (fun n : Nat => (n, false))) (0, 0)).1).2 = 1
    ∧ ((require2E (countedFst (fun n : Nat => (n, false)))
          (countedSnd (fun n : Nat => (n, 7))) (0, 0, 0)).1).2.1 = 1
    ∧ ((require2E (countedFst (fun n : Nat => (n, false)))
          (countedSnd (fun n : Nat => (n, 7))) (0, 0, 0)).1).2.2
        = (if ((fun n : Nat => (n, false)) 0).2 then 0 else 1) :=
  c10_require_eval_counts (fun n : Nat => (n, false)) (fun n : Nat => (n, 7)) 0

end WhatIWant
